import Mathlib

/-!
Shallow embedding of the sticker-conversion pipeline of `src/main.rs`
(tg-stickerize).

Conventions of the embedding:
* Rust `f32` arithmetic is modelled as exact rational arithmetic (`ℚ`);
  `f32::round` is round half away from zero.
* A `f32 as u32` cast saturates below `0` and above `2^32 - 1`
  (Rust float-to-int casts are saturating); a `u64 as u32` cast
  truncates modulo `2^32`.
* External effects (image decode, file save, process exit status,
  output file size) are supplied as explicit environment records; the
  functions of the source become pure functions of those environments.
* Rust `str::parse::<f32>` is modelled on finite decimal literals
  (optional sign, integer digits, optional fraction); exponent and
  inf/nan forms do not occur in this development's inputs.
-/

namespace Stickerize

/-- Rust `f32::round`: round half away from zero, on exact rationals. -/
def roundHalfAway (q : ℚ) : ℤ :=
  if 0 ≤ q then ⌊q + 1/2⌋ else ⌈q - 1/2⌉

/-- Rust `as u32` applied to a rounded f32 value: saturating cast from `ℤ`. -/
def f32_to_u32 (z : ℤ) : ℕ :=
  min z.toNat (2 ^ 32 - 1)

/-- Lines 36–42 of `src/main.rs` (`process_image`): new dimensions with the
long side pinned to 512.  `if width >= height { let ratio = 512.0 / width;
(512, (height * ratio).round() as u32) } else { symmetric }`. -/
def image_new_dims (width height : ℕ) : ℕ × ℕ :=
  if height ≤ width then
    (512, f32_to_u32 (roundHalfAway ((height : ℚ) * (512 / (width : ℚ)))))
  else
    (f32_to_u32 (roundHalfAway ((width : ℚ) * (512 / (height : ℚ)))), 512)

/-- Lines 131–137 of `src/main.rs` (`process_webm`): the identical dimension
computation on the video path. -/
def webm_new_dims (width height : ℕ) : ℕ × ℕ :=
  if height ≤ width then
    (512, f32_to_u32 (roundHalfAway ((height : ℚ) * (512 / (width : ℚ)))))
  else
    (f32_to_u32 (roundHalfAway ((width : ℚ) * (512 / (height : ℚ)))), 512)

/-- Line 140 of `src/main.rs`:
`let target_fps = if fps > 30.0 { 30 } else { fps.round() as u32 };`. -/
def target_fps (fps : ℚ) : ℕ :=
  if 30 < fps then 30 else f32_to_u32 (roundHalfAway fps)

/-- Line 141 of `src/main.rs`:
`let target_duration = if duration > 3.0 { 3.0 } else { duration };`. -/
def target_duration (duration : ℚ) : ℚ :=
  if 3 < duration then 3 else duration

/-! JSON values as produced by the probe tool, mirroring `serde_json::Value`.
Numbers are carried as exact rationals; `as_u64` succeeds exactly on
unsigned integral numbers below `2^64`. -/

/-- Model of `serde_json::Value`. -/
inductive Json where
  | null : Json
  | bool (b : Bool) : Json
  | num (q : ℚ) : Json
  | str (s : String) : Json
  | arr (xs : List Json) : Json
  | obj (fields : List (String × Json)) : Json

/-- Look up a key in an object's field list (first match). -/
def mapGet (fields : List (String × Json)) (k : String) : Option Json :=
  (fields.find? fun p => p.1 == k).map fun p => p.2

/-- Model of `serde_json::Value` indexing by a string key: `Null` when the
value is not an object or the key is absent. -/
def Json.getField (j : Json) (k : String) : Json :=
  match j with
  | .obj fields => (mapGet fields k).getD .null
  | _ => .null

/-- Model of `Value::as_array`. -/
def Json.asArray (j : Json) : Option (List Json) :=
  match j with
  | .arr xs => some xs
  | _ => none

/-- Model of `Value::as_object`. -/
def Json.asObject (j : Json) : Option (List (String × Json)) :=
  match j with
  | .obj fields => some fields
  | _ => none

/-- Model of `Value::as_str`. -/
def Json.asStr (j : Json) : Option String :=
  match j with
  | .str s => some s
  | _ => none

/-- Model of `Value::as_u64`: succeeds exactly on unsigned integral
numbers below `2^64`. -/
def Json.asU64 (j : Json) : Option ℕ :=
  match j with
  | .num q => if q.den = 1 ∧ 0 ≤ q.num ∧ q.num < 2 ^ 64 then some q.num.toNat else none
  | _ => none

/-- Digits-to-number accumulator for the decimal parser. -/
def digitsToNat (ds : List Char) : ℕ :=
  ds.foldl (fun a c => 10 * a + (c.toNat - 48)) 0

/-- Model of Rust `str::parse::<f32>` on finite decimal literals, working
on the character list: optional sign, integer digits, optional fraction,
at least one digit overall; the value is exact (f32 quantisation
abstracted away).  Exponent and inf/nan forms do not occur among this
program's probe outputs. -/
def parseF32Chars (cs : List Char) : Option ℚ :=
  let signAndRest : ℚ × List Char :=
    match cs with
    | '-' :: rest => (-1, rest)
    | '+' :: rest => (1, rest)
    | _ => (1, cs)
  let sign := signAndRest.1
  let body := signAndRest.2
  let intDigits := body.takeWhile Char.isDigit
  let afterInt := body.dropWhile Char.isDigit
  match afterInt with
  | [] =>
    if intDigits.isEmpty then none
    else some (sign * (digitsToNat intDigits : ℚ))
  | '.' :: frac =>
    let fracDigits := frac.takeWhile Char.isDigit
    let afterFrac := frac.dropWhile Char.isDigit
    if afterFrac.isEmpty ∧ (¬ intDigits.isEmpty ∨ ¬ fracDigits.isEmpty) then
      some (sign * ((digitsToNat intDigits : ℚ) +
        (digitsToNat fracDigits : ℚ) / 10 ^ fracDigits.length))
    else none
  | _ => none

/-- Rust `str::parse::<f32>` on a string. -/
def parseF32 (s : String) : Option ℚ :=
  parseF32Chars s.data

/-- Split a character list at every occurrence of `c`, as Rust
`str::split(c)` does: `n` separators yield `n + 1` pieces, and the empty
input yields one empty piece. -/
def splitOnChar (c : Char) : List Char → List Char → List (List Char)
  | [], acc => [acc.reverse]
  | x :: xs, acc =>
    if x = c then acc.reverse :: splitOnChar c xs []
    else splitOnChar c xs (x :: acc)

/-- Error taxonomy of the conversion pipeline.  Each constructor carries the
source's `anyhow!` message site; the spec's names are noted alongside. -/
inductive ProcErr where
  /-- Image decode failure (`process_image`, decode chain). -/
  | decodeError : ProcErr
  /-- Image save failure (`save_with_format`). -/
  | encodeError : ProcErr
  /-- Image over 512 KiB; carries `file_size / 1024` (message "图片太大"). -/
  | tooLargeImage (kb : ℕ) : ProcErr
  /-- `ffprobe` exited nonzero ("FFprobe命令执行失败"); spec `ToolFailed`. -/
  | ffprobeFailed : ProcErr
  /-- Probe stdout was not UTF-8/JSON; spec `MalformedOutput`. -/
  | jsonParseError : ProcErr
  /-- `streams` missing or not an array ("无法获取视频流信息"); spec
  `MalformedOutput`. -/
  | malformedStreams : ProcErr
  /-- `streams` array empty ("无法找到视频流"); spec `NoVideoStream`. -/
  | noVideoStream : ProcErr
  /-- `width` missing or not a u64 ("无法获取视频宽度"). -/
  | noWidth : ProcErr
  /-- `height` missing or not a u64 ("无法获取视频高度"). -/
  | noHeight : ProcErr
  /-- `format` missing or not an object ("无法获取视频格式信息"). -/
  | noFormatObject : ProcErr
  /-- `format["duration"]` key absent: in Rust this is a `Map` index panic,
  modelled as an error of its own. -/
  | missingDurationKey : ProcErr
  /-- `duration` not a string ("无法获取视频时长"). -/
  | noDurationStr : ProcErr
  /-- Duration string failed `parse::<f32>` (propagated `ParseFloatError`);
  spec `InvalidDuration`. -/
  | invalidDurationParse : ProcErr
  /-- `r_frame_rate` missing or not a string ("无法获取视频帧率"). -/
  | noFrameRateStr : ProcErr
  /-- Frame-rate numerator failed to parse ("无法解析帧率分子"). -/
  | fpsNumParseFailed : ProcErr
  /-- Frame-rate denominator failed to parse ("无法解析帧率分母"). -/
  | fpsDenParseFailed : ProcErr
  /-- Frame-rate denominator is zero ("帧率分母为零"); spec
  `InvalidFrameRate`. -/
  | fpsDenZero : ProcErr
  /-- Plain frame-rate string failed to parse ("无法解析帧率"). -/
  | fpsPlainParseFailed : ProcErr
  /-- `ffmpeg` exited nonzero ("FFmpeg命令执行失败"); spec
  `EncodeToolFailed`. -/
  | ffmpegFailed : ProcErr
  /-- Video over 256 KiB; carries `file_size / 1024` (message "视频太大"). -/
  | tooLargeVideo (kb : ℕ) : ProcErr
  /-- `fs::metadata` failure; spec `IOError`. -/
  | ioError : ProcErr
deriving DecidableEq

/-- Stream metadata extracted by the probe (width/height after `as u32`
truncation, frame rate and duration as exact rationals). -/
structure StreamInfo where
  width : ℕ
  height : ℕ
  frameRate : ℚ
  duration : ℚ
deriving DecidableEq

instance exceptDecEq {ε α : Type} [DecidableEq ε] [DecidableEq α] :
    DecidableEq (Except ε α) := fun a b =>
  match a, b with
  | .ok x, .ok y =>
    if h : x = y then .isTrue (congrArg Except.ok h)
    else .isFalse (fun he => h (Except.ok.inj he))
  | .error x, .error y =>
    if h : x = y then .isTrue (congrArg Except.error h)
    else .isFalse (fun he => h (Except.error.inj he))
  | .ok _, .error _ => .isFalse (fun he => Except.noConfusion he)
  | .error _, .ok _ => .isFalse (fun he => Except.noConfusion he)

/-- Lines 115–128 of `src/main.rs`: frame-rate string handling.  A
two-part "num/den" form divides the parts after checking the denominator
for zero; any other split count falls back to parsing the whole string. -/
def parse_fps (s : String) : Except ProcErr ℚ :=
  match splitOnChar '/' s.data [] with
  | [n, d] =>
    match parseF32Chars n with
    | none => .error .fpsNumParseFailed
    | some num =>
      match parseF32Chars d with
      | none => .error .fpsDenParseFailed
      | some den =>
        if den = 0 then .error .fpsDenZero else .ok (num / den)
  | _ =>
    match parseF32Chars s.data with
    | none => .error .fpsPlainParseFailed
    | some q => .ok q

/-- Lines 91–96: `json["streams"].as_array().ok_or(...)`. -/
def streamsOf (json : Json) : Except ProcErr (List Json) :=
  match (json.getField "streams").asArray with
  | none => .error .malformedStreams
  | some streams => .ok streams

/-- Lines 94–98: the emptiness check and `&streams[0]`. -/
def firstStream : List Json → Except ProcErr Json
  | [] => .error .noVideoStream
  | stream :: _ => .ok stream

/-- Lines 99–101: `stream["width"].as_u64()? as u32`. -/
def widthOf (stream : Json) : Except ProcErr ℕ :=
  match (stream.getField "width").asU64 with
  | none => .error .noWidth
  | some w64 => .ok (w64 % 2 ^ 32)

/-- Lines 102–104: `stream["height"].as_u64()? as u32`. -/
def heightOf (stream : Json) : Except ProcErr ℕ :=
  match (stream.getField "height").asU64 with
  | none => .error .noHeight
  | some h64 => .ok (h64 % 2 ^ 32)

/-- Lines 106–112: the `format` object, the `duration` string and its
`parse::<f32>`.  No positivity check follows the parse: whatever rational
the string denotes — zero or negative included — is returned. -/
def durationOf (json : Json) : Except ProcErr ℚ :=
  match (json.getField "format").asObject with
  | none => .error .noFormatObject
  | some format =>
    match mapGet format "duration" with
    | none => .error .missingDurationKey
    | some dval =>
      match dval.asStr with
      | none => .error .noDurationStr
      | some durS =>
        match parseF32 durS with
        | none => .error .invalidDurationParse
        | some duration => .ok duration

/-- Lines 114–128: `stream["r_frame_rate"].as_str()` then the fps parse. -/
def fpsOf (stream : Json) : Except ProcErr ℚ :=
  match (stream.getField "r_frame_rate").asStr with
  | none => .error .noFrameRateStr
  | some fpsS => parse_fps fpsS

/-- Lines 91–128 of `src/main.rs` (`process_webm`): extraction of stream
info from the parsed `ffprobe` JSON, staged in source order — streams
array, emptiness, width, height, duration, then frame rate.  No positivity
check is applied to any extracted value. -/
def probe_extract (json : Json) : Except ProcErr StreamInfo :=
  match streamsOf json with
  | .error e => .error e
  | .ok streams =>
  match firstStream streams with
  | .error e => .error e
  | .ok stream =>
  match widthOf stream with
  | .error e => .error e
  | .ok w =>
  match heightOf stream with
  | .error e => .error e
  | .ok h =>
  match durationOf json with
  | .error e => .error e
  | .ok dur =>
  match fpsOf stream with
  | .error e => .error e
  | .ok fps => .ok ⟨w, h, fps, dur⟩

/-- A probe stream object with the given width, height and frame-rate
string, as `ffprobe` reports it. -/
def mkStream (w h : ℕ) (fpsS : String) : Json :=
  Json.obj [("width", Json.num w), ("height", Json.num h),
    ("r_frame_rate", Json.str fpsS)]

/-- A well-shaped probe JSON with the given width, height, frame-rate
string and duration string, matching the schema `ffprobe` is asked for. -/
def mkProbeJson (w h : ℕ) (fpsS durS : String) : Json :=
  .obj [("streams", .arr [mkStream w h fpsS]),
        ("format", .obj [("duration", .str durS)])]

/-! Pipeline models.  External effects (decode, save, process exit codes,
output size) are supplied through environment records; each pipeline
function then mirrors the control flow of its Rust counterpart. -/

/-- External effects seen by `process_image`: `decoded` is the dimensions
when the open/guess/decode chain succeeds, `encodeOk` the success of
`save_with_format`, `statOk` the success of `fs::metadata`, and
`encodedSize` the byte size of the written WebP file. -/
structure ImageEnv where
  decoded : Option (ℕ × ℕ)
  encodeOk : Bool
  statOk : Bool
  encodedSize : ℕ

/-- Observable outcome of `process_image`: the resize target, whether an
output file exists and its size, and the returned result. -/
structure ImageOutcome where
  resizedTo : Option (ℕ × ℕ)
  fileSize : Option ℕ
  result : Except ProcErr Unit
deriving DecidableEq

/-- Lines 26–61 of `src/main.rs` (`process_image`): decode, derive
dimensions, resize, save as WebP, stat, and reject sizes above
`512 * 1024` bytes with the size reported as `file_size / 1024` KB.  The
size check follows the save, and the file is left in place on the
too-large error (single pass, no truncation, no retry). -/
def process_image (env : ImageEnv) : ImageOutcome :=
  match env.decoded with
  | none => ⟨none, none, .error .decodeError⟩
  | some wh =>
    let dims := image_new_dims wh.1 wh.2
    if env.encodeOk then
      if env.statOk then
        if 512 * 1024 < env.encodedSize then
          ⟨some dims, some env.encodedSize,
            .error (.tooLargeImage (env.encodedSize / 1024))⟩
        else
          ⟨some dims, some env.encodedSize, .ok ()⟩
      else
        ⟨some dims, some env.encodedSize, .error .ioError⟩
    else
      ⟨some dims, none, .error .encodeError⟩

/-- The `ffmpeg` invocation of lines 144–166 of `src/main.rs`, field by
field: `-t` (trim), `-vf scale=w:h`, `-r` (output frame rate), `-c:v`,
`-b:v`, `-auto-alt-ref 0`, `-pix_fmt`, and `-f` (container format forced
explicitly, not inferred from the output path's extension). -/
structure FfmpegConfig where
  trimDuration : ℚ
  scaleWidth : ℕ
  scaleHeight : ℕ
  frameRateCap : ℕ
  videoCodec : String
  videoBitrate : String
  autoAltRef : Bool
  pixelFormat : String
  forcedFormat : String
deriving DecidableEq

/-- External effects seen by `process_webm`: the `ffprobe` exit status, its
parsed stdout (`none` when not UTF-8/JSON), the `ffmpeg` exit status, the
`fs::metadata` success, and the output file's byte size. -/
structure WebmEnv where
  probeExitOk : Bool
  probeJson : Option Json
  ffmpegExitOk : Bool
  statOk : Bool
  encodedSize : ℕ

/-- Observable outcome of `process_webm`: the `ffmpeg` configuration when
the encoder was invoked (`none` when it never ran), the output file's size
when a successful encode wrote it, and the returned result. -/
structure WebmOutcome where
  ffmpegInvoked : Option FfmpegConfig
  fileSize : Option ℕ
  result : Except ProcErr Unit
deriving DecidableEq

/-- Lines 63–187 of `src/main.rs` (`process_webm`): probe, extract, derive
targets, invoke `ffmpeg` with the derived configuration, stat, and reject
sizes above `256 * 1024` bytes with the size reported as
`file_size / 1024` KB.  The size check follows the encode (single pass, no
truncation, no retry). -/
def process_webm (env : WebmEnv) : WebmOutcome :=
  if env.probeExitOk then
    match env.probeJson with
    | none => ⟨none, none, .error .jsonParseError⟩
    | some json =>
      match probe_extract json with
      | .error e => ⟨none, none, .error e⟩
      | .ok info =>
        let dims := webm_new_dims info.width info.height
        let fps := target_fps info.frameRate
        let dur := target_duration info.duration
        let cfg : FfmpegConfig :=
          ⟨dur, dims.1, dims.2, fps, "libvpx-vp9", "200k", false,
            "yuva420p", "webm"⟩
        if env.ffmpegExitOk then
          if env.statOk then
            if 256 * 1024 < env.encodedSize then
              ⟨some cfg, some env.encodedSize,
                .error (.tooLargeVideo (env.encodedSize / 1024))⟩
            else
              ⟨some cfg, some env.encodedSize, .ok ()⟩
          else
            ⟨some cfg, some env.encodedSize, .error .ioError⟩
        else
          ⟨some cfg, none, .error .ffmpegFailed⟩
  else
    ⟨none, none, .error .ffprobeFailed⟩

/-! Classification (lines 274–329 of `src/main.rs`).  After download, the
file's kind is decided solely by `infer::get_from_path`, which inspects the
file's leading bytes; the model therefore takes only the content-detected
MIME type (`none` when no byte signature matched).  No caller-supplied
content-type hint reaches this step. -/

/-- Media kind in the sense of the spec's Classifier. -/
inductive MediaKind where
  | image : MediaKind
  | video : MediaKind
  | unknown : MediaKind
deriving DecidableEq

/-- Lines 277–284: `(is_image, is_video)` from the content-detected MIME
type; an unrecognised signature (`None` from `infer`) yields neither. -/
def detect (inferred : Option String) : Bool × Bool :=
  match inferred with
  | some mime => (mime.startsWith "image/", mime.startsWith "video/")
  | none => (false, false)

/-- The media kind the detection amounts to. -/
def mediaKindOf (inferred : Option String) : MediaKind :=
  let d := detect inferred
  if d.1 then .image else if d.2 then .video else .unknown

/-- Which processing branch `handle_file` takes (lines 288–329): the image
transcoder, the video pipeline (the only caller of the prober and the
encode tool), or the unsupported-type failure. -/
structure HandleOutcome where
  invokedImageTranscoder : Bool
  invokedVideoPipeline : Bool
  unsupported : Bool
deriving DecidableEq

/-- Lines 288–329 of `src/main.rs`: dispatch on the detection result. -/
def handle_dispatch (inferred : Option String) : HandleOutcome :=
  let d := detect inferred
  if d.1 then ⟨true, false, false⟩
  else if d.2 then ⟨false, true, false⟩
  else ⟨false, false, true⟩

/- Bounds on the round-half-away result used by both derivation paths. -/

theorem roundHalfAway_nonneg {q : ℚ} (hq : 0 ≤ q) : 0 ≤ roundHalfAway q := by
  unfold roundHalfAway
  rw [if_pos hq]
  have : (0 : ℚ) ≤ q + 1/2 := by linarith
  exact Int.le_floor.2 (by exact_mod_cast this)

theorem roundHalfAway_le {q : ℚ} {c : ℕ} (hq : 0 ≤ q) (hc : q ≤ (c : ℚ)) :
    roundHalfAway q ≤ (c : ℤ) := by
  unfold roundHalfAway
  rw [if_pos hq]
  have h1 : q + 1/2 < ((c : ℤ) + 1 : ℤ) := by push_cast; linarith
  have := Int.floor_lt.2 h1
  omega

theorem f32_to_u32_eq {z : ℤ} (h0 : 0 ≤ z) (h1 : z ≤ 512) :
    (f32_to_u32 z : ℤ) = z ∧ f32_to_u32 z ≤ 512 := by
  unfold f32_to_u32
  have htn : z.toNat ≤ 512 := by omega
  have hmin : min z.toNat (2 ^ 32 - 1) = z.toNat := by
    apply min_eq_left
    omega
  rw [hmin]
  constructor
  · exact_mod_cast Int.toNat_of_nonneg h0
  · exact htn

/-- The scaled short side `b * (512 / a)` is between 0 and 512 when `b ≤ a`,
`0 < a`. -/
theorem scaled_side_bounds {a b : ℕ} (ha : 0 < a) (hba : b ≤ a) :
    0 ≤ (b : ℚ) * (512 / (a : ℚ)) ∧ (b : ℚ) * (512 / (a : ℚ)) ≤ 512 := by
  have haq : (0 : ℚ) < (a : ℚ) := by exact_mod_cast ha
  have hinv : (0 : ℚ) ≤ 512 / (a : ℚ) := by positivity
  constructor
  · positivity
  · have hb : (b : ℚ) ≤ (a : ℚ) := by exact_mod_cast hba
    have h2 : (b : ℚ) * (512 / (a : ℚ)) ≤ (a : ℚ) * (512 / (a : ℚ)) :=
      mul_le_mul_of_nonneg_right hb hinv
    have h3 : (a : ℚ) * (512 / (a : ℚ)) = 512 := by
      field_simp
    linarith

/-- Core fact about the dimension derivation in the `height ≤ width` branch. -/
theorem new_dims_long_branch {a b : ℕ} (ha : 0 < a) (hba : b ≤ a) :
    (f32_to_u32 (roundHalfAway ((b : ℚ) * (512 / (a : ℚ)))) : ℤ) =
      roundHalfAway ((b : ℚ) * (512 / (a : ℚ))) ∧
    f32_to_u32 (roundHalfAway ((b : ℚ) * (512 / (a : ℚ)))) ≤ 512 := by
  obtain ⟨h0, h1⟩ := scaled_side_bounds ha hba
  have hr0 : 0 ≤ roundHalfAway ((b : ℚ) * (512 / (a : ℚ))) :=
    roundHalfAway_nonneg h0
  have hr1 : roundHalfAway ((b : ℚ) * (512 / (a : ℚ))) ≤ ((512 : ℕ) : ℤ) :=
    roundHalfAway_le h0 (by exact_mod_cast h1)
  exact f32_to_u32_eq hr0 (by exact_mod_cast hr1)

theorem mul_div_assoc_512 (b a : ℚ) : b * (512 / a) = b * 512 / a := by
  rw [mul_div_assoc]

theorem roundHalfAway_natCast (n : ℕ) : roundHalfAway (n : ℚ) = n := by
  unfold roundHalfAway
  rw [if_pos (by positivity)]
  rw [Int.floor_eq_iff]
  constructor <;> push_cast <;> linarith

/-- Evaluation of the dimension derivation at the 1920×1080 input. -/
theorem dims_eval_1920 : image_new_dims 1920 1080 = (512, 288) := by
  unfold image_new_dims
  rw [if_pos (by norm_num)]
  have h1 : ((1080 : ℕ) : ℚ) * (512 / ((1920 : ℕ) : ℚ)) = ((288 : ℕ) : ℚ) := by
    norm_num
  rw [h1, roundHalfAway_natCast]
  norm_num [f32_to_u32]
  rfl

/-- Properties of the branch that pins the first component to 512. -/
theorem long_branch_full {a b : ℕ} (ha : 0 < a) (hba : b ≤ a) :
    max 512 (f32_to_u32 (roundHalfAway ((b : ℚ) * (512 / (a : ℚ))))) = 512 ∧
    (((min 512 (f32_to_u32 (roundHalfAway ((b : ℚ) * (512 / (a : ℚ))))) : ℕ) : ℤ) =
      roundHalfAway ((b : ℚ) * 512 / (a : ℚ))) := by
  obtain ⟨heq, hle512⟩ := new_dims_long_branch ha hba
  rw [← mul_div_assoc_512]
  refine ⟨max_eq_left hle512, ?_⟩
  rw [min_eq_right hle512]
  exact heq

/-- Properties of the branch that pins the second component to 512. -/
theorem short_branch_full {a b : ℕ} (ha : 0 < a) (hba : b ≤ a) :
    max (f32_to_u32 (roundHalfAway ((b : ℚ) * (512 / (a : ℚ))))) 512 = 512 ∧
    (((min (f32_to_u32 (roundHalfAway ((b : ℚ) * (512 / (a : ℚ))))) 512 : ℕ) : ℤ) =
      roundHalfAway ((b : ℚ) * 512 / (a : ℚ))) := by
  obtain ⟨heq, hle512⟩ := new_dims_long_branch ha hba
  rw [← mul_div_assoc_512]
  refine ⟨max_eq_right hle512, ?_⟩
  rw [min_eq_left hle512]
  exact heq

/-- CLAIM C1.  For every original width `w > 0` and height `h > 0`, the
derived target dimensions satisfy `max targetW targetH = 512`, and the other
(smaller) dimension equals `round(min w h * 512 / max w h)` with rounding
half away from zero; in particular 1920×1080 derives 512×288; and the image
path and the video path compute identically. -/
theorem dims_long_side_512 (w h : ℕ) (hw : 0 < w) (hh : 0 < h) :
    image_new_dims w h = webm_new_dims w h ∧
    max (image_new_dims w h).1 (image_new_dims w h).2 = 512 ∧
    (((min (image_new_dims w h).1 (image_new_dims w h).2 : ℕ) : ℤ) =
      roundHalfAway (((min w h : ℕ) : ℚ) * 512 / ((max w h : ℕ) : ℚ))) ∧
    image_new_dims 1920 1080 = (512, 288) := by
  refine ⟨rfl, ?_, ?_, dims_eval_1920⟩
  · unfold image_new_dims
    rcases le_or_lt h w with hle | hlt
    · rw [if_pos hle]
      exact (long_branch_full hw hle).1
    · rw [if_neg (by omega)]
      exact (short_branch_full hh (le_of_lt hlt)).1
  · unfold image_new_dims
    rcases le_or_lt h w with hle | hlt
    · rw [if_pos hle, min_eq_right hle, max_eq_left hle]
      exact (long_branch_full hw hle).2
    · have hle2 : w ≤ h := le_of_lt hlt
      rw [if_neg (by omega), min_eq_left hle2, max_eq_right hle2]
      exact (short_branch_full hh hle2).2

/-- Witness for C1 at the concrete input 1920×1080. -/
theorem dims_long_side_512_witness :
    image_new_dims 1920 1080 = webm_new_dims 1920 1080 ∧
    max (image_new_dims 1920 1080).1 (image_new_dims 1920 1080).2 = 512 ∧
    (((min (image_new_dims 1920 1080).1 (image_new_dims 1920 1080).2 : ℕ) : ℤ) =
      roundHalfAway (((min 1920 1080 : ℕ) : ℚ) * 512 /
        ((max 1920 1080 : ℕ) : ℚ))) ∧
    image_new_dims 1920 1080 = (512, 288) :=
  dims_long_side_512 1920 1080 (by decide) (by decide)

/-- CLAIM C2.  Frame-rate cap: above 30 the target is 30, otherwise the
rounded original; duration cap: above 3.0 the target is 3.0, otherwise the
original duration. -/
theorem fps_duration_caps (fr d : ℚ) (hfr : 0 < fr) (hd : 0 < d) :
    (30 < fr → target_fps fr = 30) ∧
    (fr ≤ 30 → (target_fps fr : ℤ) = roundHalfAway fr) ∧
    (3 < d → target_duration d = 3) ∧
    (d ≤ 3 → target_duration d = d) := by
  refine ⟨?_, ?_, ?_, ?_⟩
  · intro hgt
    unfold target_fps
    rw [if_pos hgt]
  · intro hle
    unfold target_fps
    rw [if_neg (not_lt.2 hle)]
    have h0 : 0 ≤ roundHalfAway fr := roundHalfAway_nonneg (le_of_lt hfr)
    have h1 : roundHalfAway fr ≤ ((30 : ℕ) : ℤ) :=
      roundHalfAway_le (le_of_lt hfr) (by exact_mod_cast hle)
    have h2 : roundHalfAway fr ≤ 512 := by
      have : ((30 : ℕ) : ℤ) = 30 := by norm_num
      omega
    exact (f32_to_u32_eq h0 h2).1
  · intro hgt
    unfold target_duration
    rw [if_pos hgt]
  · intro hle
    unfold target_duration
    rw [if_neg (not_lt.2 hle)]

/-- Witness for C2 at frame rate 24 and duration 2. -/
theorem fps_duration_caps_witness :
    (30 < (24 : ℚ) → target_fps 24 = 30) ∧
    ((24 : ℚ) ≤ 30 → (target_fps 24 : ℤ) = roundHalfAway 24) ∧
    (3 < (2 : ℚ) → target_duration 2 = 3) ∧
    ((2 : ℚ) ≤ 3 → target_duration 2 = 2) :=
  fps_duration_caps 24 2 (by norm_num) (by norm_num)

/-- Evaluation at a square input: both derived dimensions are 512. -/
theorem dims_eval_square : image_new_dims 512 512 = (512, 512) := by
  unfold image_new_dims
  rw [if_pos (by norm_num)]
  have h1 : ((512 : ℕ) : ℚ) * (512 / ((512 : ℕ) : ℚ)) = ((512 : ℕ) : ℚ) := by
    norm_num
  rw [h1, roundHalfAway_natCast]
  norm_num [f32_to_u32]
  rfl

/-- Evaluation at an extreme 1×2048 input: the short side rounds to 0. -/
theorem dims_eval_skinny : image_new_dims 1 2048 = (0, 512) := by
  unfold image_new_dims
  rw [if_neg (by norm_num)]
  have h1 : ((1 : ℕ) : ℚ) * (512 / ((2048 : ℕ) : ℚ)) = 1/4 := by norm_num
  rw [h1]
  have h2 : roundHalfAway (1/4) = 0 := by
    unfold roundHalfAway
    rw [if_pos (by norm_num)]
    have h3 : (1/4 + 1/2 : ℚ) = 3/4 := by norm_num
    rw [h3]
    rw [Int.floor_eq_iff] <;> norm_num
  rw [h2]
  rfl

/-- Counterexample to C4 as stated: for the square input 512×512 both derived
dimensions equal 512 (so "exactly one equals 512" fails), and for the 1×2048
input the shorter derived dimension is 0 (so "at least 1" fails). -/
theorem dims_exactly_one_counterexample :
    (image_new_dims 512 512).1 = 512 ∧ (image_new_dims 512 512).2 = 512 ∧
    (image_new_dims 1 2048).1 = 0 := by
  rw [dims_eval_square, dims_eval_skinny]
  exact ⟨rfl, rfl, rfl⟩

/-- CLAIM C4 (amended).  For every original width `w > 0` and height
`h > 0`, the derived target on the side of the larger original dimension
equals 512 (when `w = h` both targets equal 512), and the other target
equals the shorter side scaled by the same ratio, rounded half away from
zero — with no lower clamp, so it is 0 for the 1×2048 input. -/
theorem dims_larger_side_pinned (w h : ℕ) (hw : 0 < w) (hh : 0 < h) :
    (h ≤ w → (image_new_dims w h).1 = 512 ∧
      ((image_new_dims w h).2 : ℤ) = roundHalfAway ((h : ℚ) * 512 / (w : ℚ))) ∧
    (w < h → (image_new_dims w h).2 = 512 ∧
      ((image_new_dims w h).1 : ℤ) = roundHalfAway ((w : ℚ) * 512 / (h : ℚ))) ∧
    (image_new_dims 1 2048).1 = 0 := by
  refine ⟨?_, ?_, by rw [dims_eval_skinny]⟩
  · intro hle
    unfold image_new_dims
    rw [if_pos hle, ← mul_div_assoc_512]
    exact ⟨rfl, (new_dims_long_branch hw hle).1⟩
  · intro hlt
    unfold image_new_dims
    rw [if_neg (by omega), ← mul_div_assoc_512]
    exact ⟨rfl, (new_dims_long_branch hh (le_of_lt hlt)).1⟩

/-- Witness for the amended C4 at the concrete input 1920×1080. -/
theorem dims_larger_side_pinned_witness :
    ((1080 : ℕ) ≤ 1920 → (image_new_dims 1920 1080).1 = 512 ∧
      ((image_new_dims 1920 1080).2 : ℤ) =
        roundHalfAway (((1080 : ℕ) : ℚ) * 512 / ((1920 : ℕ) : ℚ))) ∧
    ((1920 : ℕ) < 1080 → (image_new_dims 1920 1080).2 = 512 ∧
      ((image_new_dims 1920 1080).1 : ℤ) =
        roundHalfAway (((1920 : ℕ) : ℚ) * 512 / ((1080 : ℕ) : ℚ))) ∧
    (image_new_dims 1 2048).1 = 0 :=
  dims_larger_side_pinned 1920 1080 (by decide) (by decide)


/-! Evaluation lemmas for the probe extraction on well-shaped inputs. -/

theorem asU64_natCast (n : ℕ) (hn : n < 2 ^ 64) :
    (Json.num (n : ℚ)).asU64 = some n := by
  rw [show (Json.num (n : ℚ)).asU64 =
      (if (n : ℚ).den = 1 ∧ 0 ≤ (n : ℚ).num ∧ (n : ℚ).num < 2 ^ 64
       then some (n : ℚ).num.toNat else none) from rfl]
  rw [if_pos ⟨Rat.den_natCast n,
    by rw [Rat.num_natCast]; exact Int.natCast_nonneg n,
    by rw [Rat.num_natCast]; exact_mod_cast hn⟩]
  rw [Rat.num_natCast, Int.toNat_natCast]

theorem widthOf_eq_ok (stream : Json) (n : ℕ)
    (ha : (stream.getField "width").asU64 = some n) :
    widthOf stream = .ok (n % 2 ^ 32) := by
  unfold widthOf
  rw [ha]

theorem heightOf_eq_ok (stream : Json) (n : ℕ)
    (ha : (stream.getField "height").asU64 = some n) :
    heightOf stream = .ok (n % 2 ^ 32) := by
  unfold heightOf
  rw [ha]

theorem streamsOf_mk (w h : ℕ) (fpsS durS : String) :
    streamsOf (mkProbeJson w h fpsS durS) = .ok [mkStream w h fpsS] := rfl

theorem widthOf_mk (w h : ℕ) (fpsS : String) (hw : w < 2 ^ 32) :
    widthOf (mkStream w h fpsS) = .ok w := by
  have ha : ((mkStream w h fpsS).getField "width").asU64 = some w := by
    have hg : (mkStream w h fpsS).getField "width" = Json.num (w : ℚ) := rfl
    rw [hg]
    exact asU64_natCast w (lt_of_lt_of_le hw (by norm_num))
  rw [widthOf_eq_ok _ w ha, Nat.mod_eq_of_lt hw]

theorem heightOf_mk (w h : ℕ) (fpsS : String) (hh : h < 2 ^ 32) :
    heightOf (mkStream w h fpsS) = .ok h := by
  have ha : ((mkStream w h fpsS).getField "height").asU64 = some h := by
    have hg : (mkStream w h fpsS).getField "height" = Json.num (h : ℚ) := rfl
    rw [hg]
    exact asU64_natCast h (lt_of_lt_of_le hh (by norm_num))
  rw [heightOf_eq_ok _ h ha, Nat.mod_eq_of_lt hh]

theorem durationOf_mk (w h : ℕ) (fpsS durS : String) :
    durationOf (mkProbeJson w h fpsS durS) =
      match parseF32 durS with
      | none => .error .invalidDurationParse
      | some dur => .ok dur := rfl

theorem fpsOf_mk (w h : ℕ) (fpsS : String) :
    fpsOf (mkStream w h fpsS) = parse_fps fpsS := rfl

/-- Chaining lemma: a probe whose every stage succeeds returns the
assembled `StreamInfo`. -/
theorem probe_extract_ok_of (json : Json) (streams : List Json)
    (stream : Json) (w h : ℕ) (dur fps : ℚ)
    (h1 : streamsOf json = .ok streams)
    (h2 : firstStream streams = .ok stream)
    (h3 : widthOf stream = .ok w)
    (h4 : heightOf stream = .ok h)
    (h5 : durationOf json = .ok dur)
    (h6 : fpsOf stream = .ok fps) :
    probe_extract json = .ok ⟨w, h, fps, dur⟩ := by
  simp only [probe_extract, h1, h2, h3, h4, h5, h6]

/-- Chaining lemma: when only the duration parse fails, the probe returns
exactly the duration-parse error. -/
theorem probe_extract_errdur_of (json : Json) (streams : List Json)
    (stream : Json) (w h : ℕ)
    (h1 : streamsOf json = .ok streams)
    (h2 : firstStream streams = .ok stream)
    (h3 : widthOf stream = .ok w)
    (h4 : heightOf stream = .ok h)
    (h5 : durationOf json = .error .invalidDurationParse) :
    probe_extract json = .error .invalidDurationParse := by
  simp only [probe_extract, h1, h2, h3, h4, h5]

/-- A probe output without a `streams` array fails as malformed before any
later stage runs. -/
theorem probe_extract_no_streams (json : Json)
    (h : (json.getField "streams").asArray = none) :
    probe_extract json = .error .malformedStreams := by
  have h1 : streamsOf json = .error .malformedStreams := by
    unfold streamsOf
    rw [h]
  simp only [probe_extract, h1]

theorem probe_extract_mk_ok (w h : ℕ) (fpsS durS : String)
    (hw : w < 2 ^ 32) (hh : h < 2 ^ 32) (fps dur : ℚ)
    (hfps : parse_fps fpsS = .ok fps) (hdur : parseF32 durS = some dur) :
    probe_extract (mkProbeJson w h fpsS durS) = .ok ⟨w, h, fps, dur⟩ := by
  have h5 := durationOf_mk w h fpsS durS
  simp only [hdur] at h5
  have h6 := fpsOf_mk w h fpsS
  rw [hfps] at h6
  exact probe_extract_ok_of _ _ _ w h dur fps (streamsOf_mk w h fpsS durS)
    rfl (widthOf_mk w h fpsS hw) (heightOf_mk w h fpsS hh) h5 h6

theorem probe_extract_mk_errdur (w h : ℕ) (fpsS durS : String)
    (hw : w < 2 ^ 32) (hh : h < 2 ^ 32) (hdur : parseF32 durS = none) :
    probe_extract (mkProbeJson w h fpsS durS) = .error .invalidDurationParse := by
  have h5 := durationOf_mk w h fpsS durS
  simp only [hdur] at h5
  exact probe_extract_errdur_of _ _ _ w h (streamsOf_mk w h fpsS durS)
    rfl (widthOf_mk w h fpsS hw) (heightOf_mk w h fpsS hh) h5

/-- Whenever probing succeeds, `ffmpeg` is invoked with exactly the derived
configuration, regardless of how the encode itself then fares. -/
theorem process_webm_invoked (env : WebmEnv) (json : Json) (info : StreamInfo)
    (h1 : env.probeExitOk = true) (h2 : env.probeJson = some json)
    (h3 : probe_extract json = .ok info) :
    (process_webm env).ffmpegInvoked =
      some ⟨target_duration info.duration,
        (webm_new_dims info.width info.height).1,
        (webm_new_dims info.width info.height).2,
        target_fps info.frameRate,
        "libvpx-vp9", "200k", false, "yuva420p", "webm"⟩ := by
  simp only [process_webm, h1, h2, h3, if_true]
  cases hf : env.ffmpegExitOk
  · simp
  · cases hs : env.statOk
    · simp
    · by_cases hsz : 256 * 1024 < env.encodedSize <;> simp [hsz]

/-- CLAIM C3.  After a successful encode both transcoders stat the output
and accept an artifact of exactly `512 * 1024` bytes (image) or
`256 * 1024` bytes (video); any strictly larger size is rejected as the
too-large failure carrying `size / 1024`, while the written file keeps its
full size (no truncation) and no second compression attempt exists in the
control flow. -/
theorem size_caps (ienv : ImageEnv) (venv : WebmEnv) (wh : ℕ × ℕ)
    (json : Json) (info : StreamInfo)
    (hdec : ienv.decoded = some wh) (henc : ienv.encodeOk = true)
    (hist : ienv.statOk = true)
    (hpx : venv.probeExitOk = true) (hpj : venv.probeJson = some json)
    (hpe : probe_extract json = .ok info) (hfx : venv.ffmpegExitOk = true)
    (hvs : venv.statOk = true) :
    (ienv.encodedSize = 512 * 1024 → (process_image ienv).result = .ok ()) ∧
    (512 * 1024 < ienv.encodedSize →
      (process_image ienv).result =
        .error (.tooLargeImage (ienv.encodedSize / 1024)) ∧
      (process_image ienv).fileSize = some ienv.encodedSize) ∧
    (venv.encodedSize = 256 * 1024 → (process_webm venv).result = .ok ()) ∧
    (256 * 1024 < venv.encodedSize →
      (process_webm venv).result =
        .error (.tooLargeVideo (venv.encodedSize / 1024)) ∧
      (process_webm venv).fileSize = some venv.encodedSize) := by
  refine ⟨?_, ?_, ?_, ?_⟩
  · intro hsz
    simp [process_image, hdec, henc, hist, hsz]
  · intro hsz
    simp [process_image, hdec, henc, hist, hsz]
  · intro hsz
    simp [process_webm, hpx, hpj, hpe, hfx, hvs, hsz]
  · intro hsz
    simp [process_webm, hpx, hpj, hpe, hfx, hvs, hsz]

/-- CLAIM C10.  When the encoded output exceeds the cap, the too-large
error is returned only after the full oversized artifact is on disk at the
output path (the stat/size check follows the encode), and the reported
size is `size / 1024` — whole kilobytes by integer division, not exact
bytes. -/
theorem toolarge_after_write (ienv : ImageEnv) (venv : WebmEnv) (wh : ℕ × ℕ)
    (json : Json) (info : StreamInfo)
    (hdec : ienv.decoded = some wh) (henc : ienv.encodeOk = true)
    (hist : ienv.statOk = true) (hisz : 512 * 1024 < ienv.encodedSize)
    (hpx : venv.probeExitOk = true) (hpj : venv.probeJson = some json)
    (hpe : probe_extract json = .ok info) (hfx : venv.ffmpegExitOk = true)
    (hvs : venv.statOk = true) (hvsz : 256 * 1024 < venv.encodedSize) :
    (process_image ienv).fileSize = some ienv.encodedSize ∧
    (process_image ienv).result =
      .error (.tooLargeImage (ienv.encodedSize / 1024)) ∧
    (process_webm venv).fileSize = some venv.encodedSize ∧
    (process_webm venv).result =
      .error (.tooLargeVideo (venv.encodedSize / 1024)) := by
  refine ⟨?_, ?_, ?_, ?_⟩
  · simp [process_image, hdec, henc, hist, hisz]
  · simp [process_image, hdec, henc, hist, hisz]
  · simp [process_webm, hpx, hpj, hpe, hfx, hvs, hvsz]
  · simp [process_webm, hpx, hpj, hpe, hfx, hvs, hvsz]

/-- CLAIM C7.  For every successfully probed video, the external encoder is
invoked with exactly: trim to the target duration, scale to the exact
target width and height, output frame rate capped at the target, a
200 kbit/s bitrate ceiling, alternate-reference frames disabled, the
alpha-carrying pixel format `yuva420p`, and the container format forced to
`webm` explicitly. -/
theorem encoder_invocation (env : WebmEnv) (json : Json) (info : StreamInfo)
    (h1 : env.probeExitOk = true) (h2 : env.probeJson = some json)
    (h3 : probe_extract json = .ok info) :
    (process_webm env).ffmpegInvoked =
      some ⟨target_duration info.duration,
        (webm_new_dims info.width info.height).1,
        (webm_new_dims info.width info.height).2,
        target_fps info.frameRate,
        "libvpx-vp9", "200k", false, "yuva420p", "webm"⟩ :=
  process_webm_invoked env json info h1 h2 h3

/-- CLAIM C8.  A probe output whose `streams` field is missing or not an
array makes the video path fail with the malformed-output error, and the
encode tool is never invoked. -/
theorem missing_streams_no_encode (env : WebmEnv) (json : Json)
    (h1 : env.probeExitOk = true) (h2 : env.probeJson = some json)
    (h3 : (json.getField "streams").asArray = none) :
    (process_webm env).result = .error .malformedStreams ∧
    (process_webm env).ffmpegInvoked = none := by
  have he := probe_extract_no_streams json h3
  constructor
  · simp [process_webm, h1, h2, he]
  · simp [process_webm, h1, h2, he]

/-- CLAIM C9.  An input whose leading bytes match no known signature is
classified `Unknown` and dispatched to the unsupported-type failure, with
neither the image transcoder nor the video pipeline (the only caller of
the prober and the encode tool) invoked; the classification consumes only
the content-detected type, never a caller-supplied hint. -/
theorem classify_unknown_unsupported (inferred : Option String)
    (hnone : inferred = none) :
    mediaKindOf inferred = .unknown ∧
    handle_dispatch inferred = ⟨false, false, true⟩ := by
  subst hnone
  exact ⟨rfl, rfl⟩

/-- Witness for C9: the no-signature-match detection result. -/
theorem classify_unknown_unsupported_witness :
    mediaKindOf none = .unknown ∧
    handle_dispatch none = ⟨false, false, true⟩ :=
  classify_unknown_unsupported none rfl

/-! Concrete evaluations.  Batteries marks the `Rat` arithmetic operations
irreducible for elaboration performance; the witnesses below evaluate the
pipeline at concrete inputs, so the section restores kernel-style
reducibility locally.  Soundness is unaffected: the kernel ignores
reducibility attributes, and every proof still passes through it. -/

section ConcreteEvaluation

set_option allowUnsafeReducibility true

attribute [local semireducible] Rat.mul Rat.add Rat.div Rat.sub Rat.neg Rat.inv

/-- CLAIM C5 (counterexample).  The duration string "0" parses to the
non-positive value 0, yet the prober succeeds and the zero duration is
propagated unchanged to the deriver — so "a duration that parses to zero
or negative is rejected" is false. -/
theorem duration_zero_accepted_counterexample :
    probe_extract (mkProbeJson 320 240 "30" "0") = .ok ⟨320, 240, 30, 0⟩ ∧
    target_duration 0 = 0 := by
  constructor
  · decide
  · decide

/-- CLAIM C5 (amended).  A duration string that fails to parse as a float
makes the prober fail with the propagated parse error; a string that
parses — to any value, zero and negative included — is accepted and its
value propagated to the deriver without a positivity check. -/
theorem duration_parse_behavior (w h : ℕ) (durS : String)
    (hw : w < 2 ^ 32) (hh : h < 2 ^ 32) :
    (parseF32 durS = none →
      probe_extract (mkProbeJson w h "30" durS) =
        .error .invalidDurationParse) ∧
    (∀ q : ℚ, parseF32 durS = some q →
      probe_extract (mkProbeJson w h "30" durS) = .ok ⟨w, h, 30, q⟩) := by
  have hp : parse_fps "30" = .ok 30 := by decide
  constructor
  · intro hdur
    exact probe_extract_mk_errdur w h "30" durS hw hh hdur
  · intro q hdur
    exact probe_extract_mk_ok w h "30" durS hw hh 30 q hp hdur

/-- Witness for the amended C5 at the failing string "xyz" and the parsing
string "2.5". -/
theorem duration_parse_behavior_witness :
    probe_extract (mkProbeJson 320 240 "30" "xyz") =
      .error .invalidDurationParse ∧
    probe_extract (mkProbeJson 320 240 "30" "2.5") =
      .ok ⟨320, 240, 30, 5/2⟩ := by
  constructor
  · exact (duration_parse_behavior 320 240 "xyz" (by decide) (by decide)).1
      (by decide)
  · exact (duration_parse_behavior 320 240 "2.5" (by decide) (by decide)).2
      (5/2) (by decide)

/-- CLAIM C6 (counterexample).  A probe output with width 0, height 0 and
frame rate "0/1" passes extraction — `StreamInfo` with all-zero
width/height/frameRate is produced — and the deriver and encoder are then
invoked with those zeros, so the claimed positivity guarantee is false. -/
theorem prober_positivity_counterexample :
    probe_extract (mkProbeJson 0 0 "0/1" "1") = .ok ⟨0, 0, 0, 1⟩ ∧
    (process_webm ⟨true, some (mkProbeJson 0 0 "0/1" "1"), true, true,
        0⟩).ffmpegInvoked =
      some ⟨1, 512, 0, 0, "libvpx-vp9", "200k", false, "yuva420p", "webm"⟩ := by
  constructor
  · decide
  · decide

/-- CLAIM C6 (amended).  The prober checks only the presence and JSON types
of width, height, frame rate and duration — never positivity: every
width and height below `2^32` (zero included) and a zero frame rate pass
through, and the parameter deriver is then invoked with those values. -/
theorem prober_accepts_nonpositive (w h : ℕ)
    (hw : w < 2 ^ 32) (hh : h < 2 ^ 32) :
    probe_extract (mkProbeJson w h "0/1" "1") = .ok ⟨w, h, 0, 1⟩ ∧
    (process_webm ⟨true, some (mkProbeJson w h "0/1" "1"), true, true,
        0⟩).ffmpegInvoked =
      some ⟨target_duration 1, (webm_new_dims w h).1, (webm_new_dims w h).2,
        target_fps 0, "libvpx-vp9", "200k", false, "yuva420p", "webm"⟩ ∧
    target_fps 0 = 0 := by
  have hp : parse_fps "0/1" = .ok 0 := by decide
  have hd : parseF32 "1" = some 1 := by decide
  have h1 := probe_extract_mk_ok w h "0/1" "1" hw hh 0 1 hp hd
  refine ⟨h1, ?_, by decide⟩
  exact process_webm_invoked _ _ _ rfl rfl h1

/-- Witness for the amended C6 at width 0, height 0. -/
theorem prober_accepts_nonpositive_witness :
    probe_extract (mkProbeJson 0 0 "0/1" "1") = .ok ⟨0, 0, 0, 1⟩ ∧
    target_fps 0 = 0 := by
  have h := prober_accepts_nonpositive 0 0 (by decide) (by decide)
  exact ⟨h.1, h.2.2⟩

/-- Witness for C3: the boundary sizes are accepted on both paths. -/
theorem size_caps_witness :
    (process_image ⟨some (100, 100), true, true, 512 * 1024⟩).result =
      .ok () ∧
    (process_webm ⟨true, some (mkProbeJson 320 240 "30" "2"), true, true,
        256 * 1024⟩).result = .ok () := by
  have h := size_caps ⟨some (100, 100), true, true, 512 * 1024⟩
    ⟨true, some (mkProbeJson 320 240 "30" "2"), true, true, 256 * 1024⟩
    (100, 100) (mkProbeJson 320 240 "30" "2") ⟨320, 240, 30, 2⟩
    rfl rfl rfl rfl rfl (by decide) rfl rfl
  exact ⟨h.1 rfl, h.2.2.1 rfl⟩

/-- Witness for C10: one byte over each cap leaves the file written and
reports the size in whole kilobytes. -/
theorem toolarge_after_write_witness :
    (process_image ⟨some (100, 100), true, true, 524289⟩).fileSize =
      some 524289 ∧
    (process_image ⟨some (100, 100), true, true, 524289⟩).result =
      .error (.tooLargeImage (524289 / 1024)) ∧
    (process_webm ⟨true, some (mkProbeJson 320 240 "30" "2"), true, true,
        262145⟩).fileSize = some 262145 ∧
    (process_webm ⟨true, some (mkProbeJson 320 240 "30" "2"), true, true,
        262145⟩).result = .error (.tooLargeVideo (262145 / 1024)) :=
  toolarge_after_write ⟨some (100, 100), true, true, 524289⟩
    ⟨true, some (mkProbeJson 320 240 "30" "2"), true, true, 262145⟩
    (100, 100) (mkProbeJson 320 240 "30" "2") ⟨320, 240, 30, 2⟩
    rfl rfl rfl (by decide) rfl rfl (by decide) rfl rfl (by decide)

/-- Witness for C7 at a 320×240, 30 fps, 2 s probe result. -/
theorem encoder_invocation_witness :
    (process_webm ⟨true, some (mkProbeJson 320 240 "30" "2"), true, true,
        100⟩).ffmpegInvoked =
      some ⟨target_duration 2, (webm_new_dims 320 240).1,
        (webm_new_dims 320 240).2, target_fps 30,
        "libvpx-vp9", "200k", false, "yuva420p", "webm"⟩ :=
  encoder_invocation _ (mkProbeJson 320 240 "30" "2") ⟨320, 240, 30, 2⟩
    rfl rfl (by decide)

/-- Witness for C8 at a probe output that is an object with no fields. -/
theorem missing_streams_no_encode_witness :
    (process_webm ⟨true, some (Json.obj []), true, true, 0⟩).result =
      .error .malformedStreams ∧
    (process_webm ⟨true, some (Json.obj []), true, true, 0⟩).ffmpegInvoked =
      none :=
  missing_streams_no_encode _ (Json.obj []) rfl rfl rfl

end ConcreteEvaluation

end Stickerize
